import Mathlib

/-!
Shallow embedding of the vscode-boost-test-adapter run monitor and selection
resolution, translated from the TypeScript sources:

* `TestExecutable.runTests` and its stdout line handler (test-executable,
  second revision: the one using `-l test_suite` and the six line grammars),
* the test-id utilities (`createTestIdFromParts`, `getTestIdParts`,
  `createBoostTestIdFrom`, `createBoostTestIdsFrom`),
* `AdapterManager.keepOnlyAncestors` and the selection merge in
  `AdapterManager.runHandler`.

Conventions of the embedding:

* A JS string is a Lean `String`; the six JS regular expressions are embedded
  as executable matchers over `List Char`.  Each grammar's literal segments
  contain characters (`:`, `"`, `;`, space, `(`, `)`) that are excluded from
  the adjacent `\w`/`[\w/]`/`[0-9]` character classes, so the greedy JS match
  is the unique decomposition of the line; the matchers compute it directly.
  Lines come from `readline`, so they contain no line terminators and `.` is
  modelled as "any character".
* `testRun.started/passed/failed/errored` calls are modelled as `Report`
  values carrying the test-item id string the monitor builds from its path
  stack (`reportProgress` computes that id and looks the item up; a failed
  lookup only logs, so the id is what characterises the call).
* Log-only paths (`log.warn`, `log.bug`, ...) do not change monitor state and
  are not part of the model's observable output.
-/

namespace BoostTestAdapter

/-- The double-quote character delimiting name captures in the grammars. -/
def quoteChar : Char := Char.ofNat 34

/-- JS `\w` character class: `[A-Za-z0-9_]` (ASCII only). -/
def isWordChar (c : Char) : Bool :=
  ('a' ≤ c && c ≤ 'z') || ('A' ≤ c && c ≤ 'Z') || ('0' ≤ c && c ≤ '9') || c = '_'

/-- JS `[0-9]` character class. -/
def isDigitChar (c : Char) : Bool :=
  '0' ≤ c && c ≤ '9'

/-- Digits to the number JS `Number` would produce on a `[0-9]+` capture. -/
def digitsToNat (digits : List Char) : Nat :=
  digits.foldl (fun n c => 10 * n + (c.toNat - 48)) 0

/-- Literal segment of `regexEnterTestCase`: `^(.+): Entering test case "(\w+)"$`. -/
def enterCaseLit : List Char := ": Entering test case \"".toList

/-- Literal segment of `regexEnterTestSuite`: `^(.+): Entering test suite "(\w+)"$`. -/
def enterSuiteLit : List Char := ": Entering test suite \"".toList

/-- First literal segment of `regexLeaveTestCase`. -/
def leaveCaseLit : List Char := ": Leaving test case \"".toList

/-- First literal segment of `regexLeaveTestSuite`. -/
def leaveSuiteLit : List Char := ": Leaving test suite \"".toList

/-- Second literal segment of both leave grammars: `"; testing time: `. -/
def testingTimeLit : List Char := "\"; testing time: ".toList

/-- Literal segment of `regexTestCaseError` after the line-number group. -/
def errorLit : List Char := "): error: in \"".toList

/-- Literal segment of `regexTestCaseFatalError` after the line-number group. -/
def fatalErrorLit : List Char := "): fatal error: in \"".toList

/-- Literal separating the `[\w/]+` test-name group from the message group. -/
def quoteColonSpaceLit : List Char := "\": ".toList

/--
Matcher for `^(.+)<lit>(\w+)"$` (the two enter grammars), returning the
captures `(m[1], m[2])`.  The line is parsed from its end: the name is the
maximal `\w` run before the final quote, which is the unique (hence the JS
greedy) decomposition because `<lit>` ends in a non-word character.
-/
def matchEnterTail (lit : List Char) (cs : List Char) : Option (String × String) :=
  match cs.reverse with
  | c0 :: rest =>
      if c0 ≠ quoteChar then none
      else
        let nameRev := rest.takeWhile isWordChar
        if nameRev.isEmpty then none
        else
          let rest2 := rest.drop nameRev.length
          if lit.reverse.isPrefixOf rest2 then
            let preRev := rest2.drop lit.length
            if preRev.isEmpty then none
            else some (String.mk preRev.reverse, String.mk nameRev.reverse)
          else none
  | [] => none

/--
Matcher for `^(.+)<litA>(\w+)"; testing time: (\d+)(\w+)$` (the two leave
grammars), returning `(m[1], m[2])`; the time captures are never used by the
handler.  `(\d+)(\w+)` matches a string exactly when it is all word
characters, starts with a digit and has length at least two.
-/
def matchLeaveTail (litA : List Char) (cs : List Char) : Option (String × String) :=
  let rcs := cs.reverse
  let timeRev := rcs.takeWhile isWordChar
  match timeRev.reverse with
  | t0 :: t1 :: _ =>
      if !isDigitChar t0 then none
      else
        let _ := t1
        let rest := rcs.drop timeRev.length
        if testingTimeLit.reverse.isPrefixOf rest then
          let rest2 := rest.drop testingTimeLit.length
          let nameRev := rest2.takeWhile isWordChar
          if nameRev.isEmpty then none
          else
            let rest3 := rest2.drop nameRev.length
            if litA.reverse.isPrefixOf rest3 then
              let preRev := rest3.drop litA.length
              if preRev.isEmpty then none
              else some (String.mk preRev.reverse, String.mk nameRev.reverse)
            else none
        else none
  | _ => none

/--
Deterministic parse of what follows the file-name group in the two error
grammars: `\(([0-9]+)<lit>([\w/]+)": (.+)$`.  Returns line number, test name
and message (`m[2]`, `m[3]`, `m[4]`).
-/
def errTailParse (lit : List Char) (suffix : List Char) : Option (Nat × String × String) :=
  match suffix with
  | '(' :: rest =>
      let digits := rest.takeWhile isDigitChar
      if digits.isEmpty then none
      else
        let rest2 := rest.drop digits.length
        if lit.isPrefixOf rest2 then
          let rest3 := rest2.drop lit.length
          let tname := rest3.takeWhile (fun c => isWordChar c || c = '/')
          if tname.isEmpty then none
          else
            let rest4 := rest3.drop tname.length
            if quoteColonSpaceLit.isPrefixOf rest4 then
              let msg := rest4.drop quoteColonSpaceLit.length
              if msg.isEmpty then none
              else some (digitsToNat digits, String.mk tname, String.mk msg)
            else none
        else none
  | _ => none

/--
Backtracking over the split between the greedy file-name group `(.+)` and the
rest of an error grammar, longest file name first, exactly as the JS engine
backtracks; everything after the split is deterministic (`errTailParse`).
`revPre` is the reversed candidate file name, `suffix` the rest of the line.
-/
def errScan (lit : List Char) : List Char → List Char → Option (String × Nat × String × String)
  | [], _ => none
  | c :: revPre, suffix =>
      match errTailParse lit suffix with
      | some (n, t, m) => some (String.mk (c :: revPre).reverse, n, t, m)
      | none => errScan lit revPre (c :: suffix)

/-- One recognized stdout event, with the captures the handler consumes. -/
inductive TestEvent where
  | enterCase (pre name : String)
  | leaveCase (pre name : String)
  | caseError (file : String) (lineNo : Nat) (testName msg : String)
  | caseFatalError (file : String) (lineNo : Nat) (testName msg : String)
  | enterSuite (pre name : String)
  | leaveSuite (pre name : String)
deriving DecidableEq

/--
The six grammars tried in the order of the stdout line handler: enter case,
leave case, error, fatal error, enter suite, leave suite.  `none` means the
line matches none of the six grammars.
-/
def parseLine (line : String) : Option TestEvent :=
  let cs := line.toList
  match matchEnterTail enterCaseLit cs with
  | some (p, n) => some (.enterCase p n)
  | none =>
  match matchLeaveTail leaveCaseLit cs with
  | some (p, n) => some (.leaveCase p n)
  | none =>
  match errScan errorLit cs.reverse [] with
  | some (f, ln, t, m) => some (.caseError f ln t m)
  | none =>
  match errScan fatalErrorLit cs.reverse [] with
  | some (f, ln, t, m) => some (.caseFatalError f ln t m)
  | none =>
  match matchEnterTail enterSuiteLit cs with
  | some (p, n) => some (.enterSuite p n)
  | none =>
  match matchLeaveTail leaveSuiteLit cs with
  | some (p, n) => some (.leaveSuite p n)
  | none => none

/-- Zero-based position attached to a message (`vscode.Position(lineNum, 0)`). -/
structure SourcePosition where
  line : Int
  character : Int
deriving DecidableEq

/-- `vscode.Location`: a file URI and a position. -/
structure SourceLocation where
  file : String
  pos : SourcePosition
deriving DecidableEq

/-- `vscode.TestMessage`: text plus an optional source location. -/
structure TestMessage where
  text : String
  location : Option SourceLocation
deriving DecidableEq

/--
One `testRun.<transition>(item, ...)` call, keyed by the test-item id string
the monitor computed from its path stack.
-/
inductive Report where
  | started (id : String)
  | passed (id : String)
  | failed (id : String) (msgs : List TestMessage)
  | errored (id : String) (msgs : List TestMessage)
deriving DecidableEq

/--
The mutable locals of one `runTests` invocation that the stdout line handler
reads and writes: `currentTestIdParts`, `errors`, `isInsideTestCase`,
`isParsingError`.
-/
structure MonitorState where
  currentTestIdParts : List String
  errors : List TestMessage
  isInsideTestCase : Bool
  isParsingError : Bool
deriving DecidableEq

/-- `testidutil.createTestIdFromParts`: `idParts.join('/')`. -/
def createTestIdFromParts (idParts : List String) : String :=
  match idParts with
  | [] => ""
  | [s] => s
  | s :: rest => s ++ "/" ++ createTestIdFromParts rest

/-- Splitting a character list at `/`, as JS `split('/')` does. -/
def splitOnSlash : List Char → List (List Char)
  | [] => [[]]
  | c :: rest =>
      let r := splitOnSlash rest
      if c = '/' then [] :: r
      else
        match r with
        | [] => [[c]]
        | g :: gs => (c :: g) :: gs

/-- `testidutil.getTestIdParts`: `testId.split('/')`. -/
def getTestIdParts (testId : String) : List String :=
  (splitOnSlash testId.toList).map String.mk

/--
`testidutil.createBoostTestIdFrom`: drop the adapter id and the test-exe id
(the first two `/`-separated parts); `none` when fewer than three parts
remain or the remainder is empty.
-/
def createBoostTestIdFrom (testId : String) : Option String :=
  let idParts := getTestIdParts testId
  if idParts.length < 3 then none
  else
    let boostTestId := createTestIdFromParts (idParts.drop 2)
    if boostTestId.length = 0 then none
    else some boostTestId

/-- `model.TestItem` as consumed by `createBoostTestIdsFrom`: id plus flag. -/
structure ModelTestItem where
  id : String
  isExcluded : Bool
deriving DecidableEq

/--
`testidutil.createBoostTestIdsFrom`: keep the items with a valid Boost test
id, in order, prefixing excluded items with `!`.
-/
def createBoostTestIdsFrom : List ModelTestItem → List String
  | [] => []
  | t :: ts =>
      match createBoostTestIdFrom t.id with
      | none => createBoostTestIdsFrom ts
      | some b => (if t.isExcluded then "!" ++ b else b) :: createBoostTestIdsFrom ts

/-- `arr.join(':')` on the composed filter list. -/
def joinWithColon : List String → String
  | [] => ""
  | [s] => s
  | s :: rest => s ++ ":" ++ joinWithColon rest

/-- `lastItem`: `arr[arr.length - 1]`, `undefined` on an empty array. -/
def lastItem (arr : List String) : Option String :=
  arr.getLast?

/--
The message built by `handleErrorMatch` from the file, line and message
captures: a location `(file, max(0, line - 1), column 0)` is attached unless
the file token is the sentinel `unknown location`.
-/
def mkErrorMessage (file : String) (lineNo : Nat) (msgText : String) : TestMessage :=
  if file ≠ "unknown location" then
    { text := msgText,
      location := some { file := file, pos := { line := max 0 ((lineNo : Int) - 1), character := 0 } } }
  else
    { text := msgText, location := none }

/--
`leaveTestCase(force)`: report the node at the top of the path stack —
errored with the pending messages when forced, else passed when no message is
pending, else failed with the pending messages — then pop the stack, clear
the pending messages and clear the inside-a-case flag.
-/
def leaveTestCase (st : MonitorState) (force : Bool) : MonitorState × List Report :=
  let id := createTestIdFromParts st.currentTestIdParts
  let rep : Report :=
    if force then .errored id st.errors
    else if st.errors.isEmpty then .passed id
    else .failed id st.errors
  ({ st with currentTestIdParts := st.currentTestIdParts.dropLast,
             errors := [], isInsideTestCase := false }, [rep])

/--
`enterTestCase(name)`: push the name, report the node at the resulting path
as started, set the inside-a-case flag.
-/
def enterTestCase (st : MonitorState) (testCaseName : String) : MonitorState × List Report :=
  let parts := st.currentTestIdParts ++ [testCaseName]
  ({ st with currentTestIdParts := parts, isInsideTestCase := true },
   [.started (createTestIdFromParts parts)])

/-- `handleErrorMatch(m)`: append the built message to the pending list. -/
def handleErrorMatch (st : MonitorState) (file : String) (lineNo : Nat) (msgText : String) :
    MonitorState :=
  { st with errors := st.errors ++ [mkErrorMessage file lineNo msgText] }

/--
The stdout line handler of `TestExecutable.runTests`: early return when the
parse-desync flag is set, then the six grammars in order, then the silent
fall-through for unrecognized lines.
-/
def processLine (st : MonitorState) (line : String) : MonitorState × List Report :=
  if st.isParsingError then (st, [])
  else
    match parseLine line with
    | some (.enterCase _ name) =>
        let p1 := if st.isInsideTestCase then leaveTestCase st true else (st, [])
        let p2 := enterTestCase p1.1 name
        (p2.1, p1.2 ++ p2.2)
    | some (.leaveCase _ name) =>
        let st1 := if lastItem st.currentTestIdParts ≠ some name
                   then { st with isParsingError := true } else st
        leaveTestCase st1 false
    | some (.caseError file lineNo _ msg) =>
        if st.isInsideTestCase then (handleErrorMatch st file lineNo msg, [])
        else (st, [])
    | some (.caseFatalError file lineNo _ msg) =>
        if st.isInsideTestCase then (handleErrorMatch st file lineNo msg, [])
        else (st, [])
    | some (.enterSuite _ name) =>
        let p1 := if st.isInsideTestCase then leaveTestCase st true else (st, [])
        let parts := p1.1.currentTestIdParts ++ [name]
        ({ p1.1 with currentTestIdParts := parts },
         p1.2 ++ [.started (createTestIdFromParts parts)])
    | some (.leaveSuite _ name) =>
        let p1 := if st.isInsideTestCase then leaveTestCase st true else (st, [])
        let st2 := if lastItem p1.1.currentTestIdParts ≠ some name
                   then { p1.1 with isParsingError := true } else p1.1
        ({ st2 with currentTestIdParts := st2.currentTestIdParts.dropLast },
         p1.2 ++ [.passed (createTestIdFromParts st2.currentTestIdParts)])
    | none => (st, [])

/-- The monitor state at the start of a run: the stack holds the exe item id. -/
def initialState (testExeTestItemId : String) : MonitorState :=
  { currentTestIdParts := [testExeTestItemId], errors := [],
    isInsideTestCase := false, isParsingError := false }

/-- Fold `processLine` over a stream of stdout lines, collecting the reports. -/
def processLines (st : MonitorState) : List String → MonitorState × List Report
  | [] => (st, [])
  | l :: ls =>
      let p1 := processLine st l
      let p2 := processLines p1.1 ls
      (p2.1, p1.2 ++ p2.2)

/-- The fixed flags `runTests` always passes to the spawned test binary. -/
def fixedRunArgs : List String :=
  ["-l", "test_suite", "--catch_system_errors=yes", "--detect_memory_leaks=0",
   "--color_output=no"]

/--
The argument list `runTests` spawns the binary with: the fixed flags,
followed by `-t <colon-joined filter>` only when the composed filter list is
non-empty (otherwise all tests run).
-/
def runArgs (testItems : List ModelTestItem) : List String :=
  let boostTestIds := createBoostTestIdsFrom testItems
  if boostTestIds.length > 0 then fixedRunArgs ++ ["-t", joinWithColon boostTestIds]
  else fixedRunArgs

/-- The per-target state `runTests` guards on: the active sessions. -/
structure ExeState where
  runningTests : List Nat
deriving DecidableEq

/-- How one `runTests` invocation resolves. -/
inductive RunTestsOutcome where
  | rejectedBusy
  | rejectedEmpty
  | spawned (args : List String)
deriving DecidableEq

/--
The entry of `TestExecutable.runTests`: reject (warn, return) while a session
is active; reject when no test items were provided; otherwise spawn the
binary with `runArgs` and register the new session.
-/
def runTestsEntry (st : ExeState) (testItems : List ModelTestItem) (sessionId : Nat) :
    ExeState × RunTestsOutcome :=
  if st.runningTests.length > 0 then (st, .rejectedBusy)
  else if testItems.length = 0 then (st, .rejectedEmpty)
  else ({ runningTests := st.runningTests ++ [sessionId] }, .spawned (runArgs testItems))

/--
A test item of the loaded tree, identified by its path written leaf-first
(the item's label, then its parent's, up to the root); `p.tail` is the
item's parent when non-empty.  Two items of one tree are the same object
exactly when their paths are equal, so the `===` identity test of
`keepOnlyAncestors` is path equality here.
-/
abbrev ItemPath := List String

/--
`isAncestorOf(a, b)` of `AdapterManager.keepOnlyAncestors`: walk `b`'s parent
chain and test each ancestor against `a`.
-/
def isAncestorOf (a b : ItemPath) : Bool :=
  match b with
  | [] => false
  | _ :: rest =>
      if rest.isEmpty then false
      else (rest == a) || isAncestorOf a rest

/--
`AdapterManager.keepOnlyAncestors`: keep, in order, the items having no
proper ancestor in the submitted list.
-/
def keepOnlyAncestors (testItems : List ItemPath) : List ItemPath :=
  testItems.filter (fun t => !(testItems.any (fun a => isAncestorOf a t)))

/-- An entry of the resolved selection: a path plus the exclusion flag. -/
structure SelectionEntry where
  path : ItemPath
  isExcluded : Bool
deriving DecidableEq

/--
The selection resolution of `AdapterManager.runHandler`: reduce the included
and the excluded items to ancestors separately, then merge, included first,
tagging excluded entries.
-/
def resolveSelection (included excluded : List ItemPath) : List SelectionEntry :=
  (keepOnlyAncestors included).map (fun p => { path := p, isExcluded := false })
  ++ (keepOnlyAncestors excluded).map (fun p => { path := p, isExcluded := true })

/--
C1 counterexample: the claim says the fixed flags include one disabling
OS-level system-exception interception, whose Boost.Test spelling is
`--catch_system_errors=no` (the form the debug path and earlier revisions
use).  A concrete run invocation instead passes `--catch_system_errors=yes`
— the flag that *enables* the framework's interception of system errors —
and never the disabling form, refuting the claim as stated.
-/
theorem runArgs_interception_counterexample :
    "--catch_system_errors=yes" ∈ runArgs [{ id := "a/exe/s/t", isExcluded := false }] ∧
    "--catch_system_errors=no" ∉ runArgs [{ id := "a/exe/s/t", isExcluded := false }] := by
  decide

/--
C1 amended: every run invocation of a Binary Target passes the spawned test
process exactly the fixed flags `-l test_suite` (list-style reporter),
`--catch_system_errors=yes` (the binary's framework intercepts system errors
itself, rather than them being disabled), `--detect_memory_leaks=0` (leak
detection off) and `--color_output=no` (color off), followed by
`-t <colon-joined filter>` exactly when the composed filter list is
non-empty.
-/
theorem runArgs_exact (testItems : List ModelTestItem) :
    runArgs testItems =
      ["-l", "test_suite", "--catch_system_errors=yes", "--detect_memory_leaks=0",
       "--color_output=no"] ++
        (if createBoostTestIdsFrom testItems = [] then []
         else ["-t", joinWithColon (createBoostTestIdsFrom testItems)]) := by
  rcases h : createBoostTestIdsFrom testItems with _ | ⟨b, bs⟩ <;>
    simp [runArgs, fixedRunArgs, h]

/--
C5: a stdout line matching none of the six grammars leaves the monitor state
(path stack, pending errors, inside-a-case flag, desync flag) unchanged and
emits no node transition.
-/
theorem unrecognized_line_is_inert (st : MonitorState) (line : String)
    (h : parseLine line = none) :
    processLine st line = (st, []) := by
  by_cases hp : st.isParsingError <;> simp [processLine, hp, h]

/-- Witness for C5: a raw `printf` line leaves a concrete state untouched. -/
theorem unrecognized_line_is_inert_witness :
    processLine
      { currentTestIdParts := ["exe", "s1"], errors := [], isInsideTestCase := false,
        isParsingError := false }
      "Hello from printf" =
      ({ currentTestIdParts := ["exe", "s1"], errors := [], isInsideTestCase := false,
         isParsingError := false }, []) :=
  unrecognized_line_is_inert _ _ (by decide)

/--
C6: while a Binary Target has an active session, a further `runTests` request
is rejected immediately: the target state is unchanged (nothing queued, the
in-flight session list untouched) and no process is spawned.
-/
theorem runTests_rejected_while_running (st : ExeState)
    (testItems : List ModelTestItem) (sessionId : Nat)
    (h : st.runningTests ≠ []) :
    runTestsEntry st testItems sessionId = (st, .rejectedBusy) := by
  have hlen : 0 < st.runningTests.length := List.length_pos.mpr h
  simp [runTestsEntry, hlen]

/-- Witness for C6 at a concrete busy target. -/
theorem runTests_rejected_while_running_witness :
    runTestsEntry { runningTests := [5] }
      [{ id := "a/exe/t", isExcluded := false }] 6 =
      ({ runningTests := [5] }, .rejectedBusy) :=
  runTests_rejected_while_running _ _ _ (by decide)

/--
C10: the location attached for a non-sentinel file token has line number
`max 0 (reported - 1)`: never negative, equal to `reported - 1` when the
reported line is at least 1, and 0 (not -1) when the reported line is 0.
-/
theorem error_location_line_clamped (file : String) (lineNo : Nat) (msgText : String)
    (h : file ≠ "unknown location") :
    (mkErrorMessage file lineNo msgText).location =
      some { file := file, pos := { line := max 0 ((lineNo : Int) - 1), character := 0 } } ∧
    0 ≤ max 0 ((lineNo : Int) - 1) ∧
    (lineNo = 0 → max 0 ((lineNo : Int) - 1) = 0) ∧
    (1 ≤ lineNo → max 0 ((lineNo : Int) - 1) = (lineNo : Int) - 1) := by
  refine ⟨?_, le_max_left _ _, ?_, ?_⟩
  · unfold mkErrorMessage
    rw [if_pos h]
  · intro h0
    subst h0
    decide
  · intro h1
    have hx : (0 : Int) ≤ (lineNo : Int) - 1 := by omega
    exact max_eq_right hx

/-- Witness for C10: reported line 0 yields position line 0. -/
theorem error_location_line_clamped_witness :
    (mkErrorMessage "file.cpp" 0 "boom").location =
      some { file := "file.cpp", pos := { line := 0, character := 0 } } := by
  have h := error_location_line_clamped "file.cpp" 0 "boom" (by decide)
  rw [h.1]
  decide

/--
C2: an EnterCase or EnterSuite event processed while a case is open first
force-closes the open case, reporting the node at the top of the path stack
as errored (not failed) with the pending messages, then pushes the new name
and reports the node at the resulting path as started; in particular the
stream `Entering test case "t1"` directly followed by `Entering test case
"t2"` yields t1 errored and t2 started.
-/
theorem enter_event_forces_close (st : MonitorState) (line pre name : String)
    (hpe : st.isParsingError = false) (hin : st.isInsideTestCase = true)
    (hev : parseLine line = some (.enterCase pre name) ∨
           parseLine line = some (.enterSuite pre name)) :
    ((processLine st line).2 =
       [Report.errored (createTestIdFromParts st.currentTestIdParts) st.errors,
        Report.started (createTestIdFromParts (st.currentTestIdParts.dropLast ++ [name]))] ∧
     (processLine st line).1.currentTestIdParts = st.currentTestIdParts.dropLast ++ [name] ∧
     (processLine st line).1.errors = []) ∧
    (processLines (initialState "exe")
        ["exe: Entering test case \"t1\"", "exe: Entering test case \"t2\""]).2 =
      [Report.started "exe/t1", Report.errored "exe/t1" [], Report.started "exe/t2"] := by
  constructor
  · rcases hev with hev | hev <;>
      simp [processLine, hpe, hin, hev, leaveTestCase, enterTestCase]
  · decide

/-- Witness for C2 at a concrete open-case state with a pending message. -/
theorem enter_event_forces_close_witness :
    (processLine
        { currentTestIdParts := ["exe", "t1"],
          errors := [{ text := "boom", location := none }],
          isInsideTestCase := true, isParsingError := false }
        "exe: Entering test case \"t2\"").2 =
      [Report.errored "exe/t1" [{ text := "boom", location := none }],
       Report.started "exe/t2"] := by
  have h := (enter_event_forces_close
      { currentTestIdParts := ["exe", "t1"],
        errors := [{ text := "boom", location := none }],
        isInsideTestCase := true, isParsingError := false }
      "exe: Entering test case \"t2\"" "exe" "t2" rfl rfl
      (Or.inl (by decide))).1.1
  exact h.trans (by decide)

/--
C3: a LeaveCase event whose name does not match the top of the path stack
sets the parse-desync flag, and once that flag is set every remaining stdout
line of the run is processed without any structural interpretation: the state
is unchanged and no transition is reported.
-/
theorem leaveCase_mismatch_desync :
    (∀ (st : MonitorState) (line pre name : String),
        st.isParsingError = false →
        parseLine line = some (.leaveCase pre name) →
        lastItem st.currentTestIdParts ≠ some name →
        (processLine st line).1.isParsingError = true) ∧
    (∀ (st : MonitorState) (lines : List String),
        st.isParsingError = true → processLines st lines = (st, [])) := by
  constructor
  · intro st line pre name hpe hev hne
    simp [processLine, hpe, hev, hne, leaveTestCase]
  · intro st lines h
    induction lines generalizing st with
    | nil => simp [processLines]
    | cons l ls ih =>
        have h1 : processLine st l = (st, []) := by simp [processLine, h]
        simp [processLines, h1, ih st h]

/-- Witness for C3: a mismatching leave sets the flag; a desynced state
ignores further lines. -/
theorem leaveCase_mismatch_desync_witness :
    (processLine
        { currentTestIdParts := ["exe", "a"], errors := [],
          isInsideTestCase := true, isParsingError := false }
        "exe: Leaving test case \"b\"; testing time: 12us").1.isParsingError = true ∧
    processLines
      { currentTestIdParts := ["exe"], errors := [],
        isInsideTestCase := false, isParsingError := true }
      ["exe: Entering test case \"t1\"", "exe: Leaving test case \"t1\"; testing time: 3us"] =
      ({ currentTestIdParts := ["exe"], errors := [],
         isInsideTestCase := false, isParsingError := true }, []) :=
  ⟨leaveCase_mismatch_desync.1 _ _ "exe" "b" rfl (by decide) (by decide),
   leaveCase_mismatch_desync.2 _ _ rfl⟩

/--
C4: a LeaveCase event processed while the desync flag is clear reports the
node at the top of the path stack as passed when no error message is pending
and as failed with exactly the pending messages otherwise, and clears the
pending list.
-/
theorem leaveCase_reports_result (st : MonitorState) (line pre name : String)
    (hpe : st.isParsingError = false)
    (hev : parseLine line = some (.leaveCase pre name)) :
    (processLine st line).2 =
      [if st.errors.isEmpty then Report.passed (createTestIdFromParts st.currentTestIdParts)
       else Report.failed (createTestIdFromParts st.currentTestIdParts) st.errors] ∧
    (processLine st line).1.errors = [] := by
  by_cases hm : lastItem st.currentTestIdParts = some name <;>
    simp [processLine, hpe, hev, hm, leaveTestCase]

/-- Witness for C4: a matching leave with one pending message reports failed
with that message. -/
theorem leaveCase_reports_result_witness :
    (processLine
        { currentTestIdParts := ["exe", "t1"],
          errors := [{ text := "assertion failed", location := none }],
          isInsideTestCase := true, isParsingError := false }
        "exe: Leaving test case \"t1\"; testing time: 12us").2 =
      [Report.failed "exe/t1" [{ text := "assertion failed", location := none }]] := by
  have h := (leaveCase_reports_result
      { currentTestIdParts := ["exe", "t1"],
        errors := [{ text := "assertion failed", location := none }],
        isInsideTestCase := true, isParsingError := false }
      "exe: Leaving test case \"t1\"; testing time: 12us" "exe" "t1" rfl (by decide)).1
  exact h.trans (by decide)

/--
C9: a CaseError or CaseFatalError event processed while a case is open
appends exactly one message carrying the event's text to the pending list,
with a location built from the event's file and clamped line attached iff the
file token is not the sentinel `unknown location`; outside an open case the
event changes nothing and reports nothing (it is only logged).
-/
theorem error_event_pending_message (st : MonitorState) (line file : String)
    (lineNo : Nat) (tname msg : String)
    (hpe : st.isParsingError = false)
    (hev : parseLine line = some (.caseError file lineNo tname msg) ∨
           parseLine line = some (.caseFatalError file lineNo tname msg)) :
    (st.isInsideTestCase = true →
       processLine st line =
         ({ st with errors := st.errors ++ [mkErrorMessage file lineNo msg] }, []) ∧
       (mkErrorMessage file lineNo msg).text = msg ∧
       (file ≠ "unknown location" →
          (mkErrorMessage file lineNo msg).location =
            some { file := file,
                   pos := { line := max 0 ((lineNo : Int) - 1), character := 0 } }) ∧
       (file = "unknown location" → (mkErrorMessage file lineNo msg).location = none)) ∧
    (st.isInsideTestCase = false → processLine st line = (st, [])) := by
  constructor
  · intro hin
    refine ⟨?_, ?_, ?_, ?_⟩
    · rcases hev with hev | hev <;>
        simp [processLine, hpe, hev, hin, handleErrorMatch]
    · unfold mkErrorMessage
      split <;> rfl
    · intro hf
      unfold mkErrorMessage
      rw [if_pos hf]
    · intro hf
      simp [mkErrorMessage, hf]
  · intro hin
    rcases hev with hev | hev <;> simp [processLine, hpe, hev, hin]

/-- Witness for C9: a concrete fatal-error line appends one located message. -/
theorem error_event_pending_message_witness :
    processLine
      { currentTestIdParts := ["exe", "t1"], errors := [],
        isInsideTestCase := true, isParsingError := false }
      "a.cpp(3): fatal error: in \"t1\": overflow" =
      ({ currentTestIdParts := ["exe", "t1"],
         errors := [{ text := "overflow",
                      location := some { file := "a.cpp",
                                         pos := { line := 2, character := 0 } } }],
         isInsideTestCase := true, isParsingError := false }, []) := by
  have h := ((error_event_pending_message
      { currentTestIdParts := ["exe", "t1"], errors := [],
        isInsideTestCase := true, isParsingError := false }
      "a.cpp(3): fatal error: in \"t1\": overflow" "a.cpp" 3 "t1" "overflow"
      rfl (Or.inr (by decide))).1 rfl).1
  exact h.trans (by decide)

/--
C7 counterexample: in the chain root → s → c with all three submitted as
included, the node c and its proper ancestor s are both present with the same
exclusion flag and c is indeed dropped, but s — the ancestor of that pair —
is **not** retained in the resolved selection (only root is), refuting the
claim that the ancestor of such a pair is always retained.
-/
theorem selection_chain_counterexample :
    isAncestorOf ["s", "root"] ["c", "s", "root"] = true ∧
    (["s", "root"] : ItemPath) ∈ [(["root"] : ItemPath), ["s", "root"], ["c", "s", "root"]] ∧
    (["c", "s", "root"] : ItemPath) ∈ [(["root"] : ItemPath), ["s", "root"], ["c", "s", "root"]] ∧
    resolveSelection [["root"], ["s", "root"], ["c", "s", "root"]] [] =
      [{ path := ["root"], isExcluded := false }] ∧
    ({ path := ["c", "s", "root"], isExcluded := false } : SelectionEntry) ∉
      resolveSelection [["root"], ["s", "root"], ["c", "s", "root"]] [] ∧
    ({ path := ["s", "root"], isExcluded := false } : SelectionEntry) ∉
      resolveSelection [["root"], ["s", "root"], ["c", "s", "root"]] [] := by
  decide

/--
C7 amended: an entry is present in the resolved selection with a given
exclusion flag iff it was submitted in that flag group and none of its proper
ancestors was submitted in the same group; retained entries are kept
unchanged and in submission order.  In particular the descendant of a
same-flag pair is always dropped, and the ancestor is retained exactly when
it has no present proper ancestor of its own.
-/
theorem resolveSelection_amended (included excluded : List ItemPath) (b : ItemPath) :
    (({ path := b, isExcluded := false } : SelectionEntry) ∈ resolveSelection included excluded ↔
       b ∈ included ∧ ∀ a ∈ included, isAncestorOf a b = false) ∧
    (({ path := b, isExcluded := true } : SelectionEntry) ∈ resolveSelection included excluded ↔
       b ∈ excluded ∧ ∀ a ∈ excluded, isAncestorOf a b = false) ∧
    (keepOnlyAncestors included).Sublist included ∧
    (keepOnlyAncestors excluded).Sublist excluded := by
  refine ⟨?_, ?_, List.filter_sublist _, List.filter_sublist _⟩ <;>
    simp [resolveSelection, keepOnlyAncestors, List.mem_filter, List.mem_map,
          List.mem_append, SelectionEntry.mk.injEq, List.any_eq_true]

/-- Witness for C7 amended: a non-shadowed entry is retained. -/
theorem resolveSelection_amended_witness :
    ({ path := ["root"], isExcluded := false } : SelectionEntry) ∈
      resolveSelection [["root"], ["s", "root"]] [] :=
  (resolveSelection_amended [["root"], ["s", "root"]] [] ["root"]).1.mpr (by decide)

/--
C8: a selection resolving to an empty per-binary filter list — in particular
the one holding only a Binary Target's root node, whose id has fewer than
three `/`-separated parts — makes the run spawn the binary with the fixed
flags and no `-t` argument (run everything), rather than run nothing.
-/
theorem empty_filter_runs_all :
    (∀ testItems : List ModelTestItem,
        createBoostTestIdsFrom testItems = [] →
        runArgs testItems = fixedRunArgs ∧ "-t" ∉ runArgs testItems) ∧
    createBoostTestIdsFrom [{ id := "adapter/exe", isExcluded := false }] = [] ∧
    runTestsEntry { runningTests := [] } [{ id := "adapter/exe", isExcluded := false }] 0 =
      ({ runningTests := [0] }, .spawned fixedRunArgs) := by
  refine ⟨?_, by decide, by decide⟩
  intro ts h
  have hargs : runArgs ts = fixedRunArgs := by simp [runArgs, h]
  exact ⟨hargs, hargs ▸ by decide⟩

/-- Witness for C8: a two-part id composes no filter and keeps the fixed
argument list. -/
theorem empty_filter_runs_all_witness :
    runArgs [{ id := "a/b", isExcluded := true }] = fixedRunArgs ∧
    "-t" ∉ runArgs [{ id := "a/b", isExcluded := true }] :=
  empty_filter_runs_all.1 _ (by decide)

end BoostTestAdapter
